import Mathlib

set_option linter.unusedVariables false

/-!
Verification of the configuration-binding and live-reconfiguration core of
OvenMediaEngine, as sampled in two source files:

* `src/projects/config/value_for_bool.h` — the boolean specialization
  `Value<bool>` of the typed configuration value family (`TypedValue` in the
  spec): default construction, `Reset`, the three `Parse` variants and
  `ToStringInternal`.
* `src/projects/api_server/api_server.cpp` — the administrative API server:
  `Server::CreateVHost` / `Server::DeleteVHost` (surfacing of the
  ReconfigurationGateway outcomes) and `Server::Start` /
  `Server::PrepareHttpServers` (all-or-nothing listener bootstrap).

External collaborators referenced but not present in the sampled sources
(`ValueContainer` base, `ov::Converter::ToBool`, `ocst::Orchestrator`) are
modelled from the specification; every such definition carries a doc comment
starting with `Modelled from the spec:`.
-/

namespace cfg

/-- The closed kind enumeration of a TypedValue.
Modelled from the spec: `ValueType` is declared in
`value_for_specialization.h`, which is not among the sampled sources; the
spec lists the closed set {Boolean, Integer, Float, String, Enum, Object,
List}. Only `Boolean` is referenced by the sampled code
(`Tconfig_type = ValueType::Boolean`). -/
inductive ValueType where
  | Boolean
  | Integer
  | Float
  | String
  | Enum
  | Object
  | List
deriving DecidableEq, Repr

/-- State of a `Value<bool>` object (`value_for_bool.h`): the pointed-to
boolean `*_value` and the inherited `_is_parsed` flag.
The `std::shared_ptr` indirection is not observable through the sampled
operations (every operation either replaces the pointer with a fresh cell or
writes through it), so the state is the plain pair of fields. -/
structure BoolValue where
  _value : Bool
  _is_parsed : Bool
deriving DecidableEq, Repr

/-- Default constructor `Value() : ValueContainer<Ttype>(Tconfig_type)`
followed by `_value = std::make_shared<Ttype>()`; a value-initialized `bool`
is `false`.
Modelled from the spec (for the part in the `ValueContainer` base, which is
not among the sampled sources): `is_parsed` is "never set by default
construction", so it starts out `false`. -/
def mkValue : BoolValue :=
  { _value := false, _is_parsed := false }

/-- Converting constructor `Value(const Ttype &value) : Value()` followed by
`_value = std::make_shared<Ttype>(value)`. It delegates to the default
constructor and then overwrites the storage; it never touches `_is_parsed`. -/
def mkValueFrom (value : Bool) : BoolValue :=
  { mkValue with _value := value }

/-- `Value<bool>::Reset()`: the body is exactly
`_value = std::make_shared<Ttype>();` — the storage is replaced with a fresh
default-constructed (`false`) cell. The override does not call the base
`Reset` and does not mention `_is_parsed`, so the parsed flag is unchanged. -/
def Reset (self : BoolValue) : BoolValue :=
  { self with _value := false }

/-- A value of some non-boolean kind, as seen through a `ValueBase *`.
Its own storage is irrelevant to the sampled bool specialization: the only
operation the sampled code performs on it is the failing
`dynamic_cast<const Value<bool> *>`. -/
inductive OtherKind where
  | Integer
  | Float
  | String
  | Enum
  | Object
  | List
deriving DecidableEq, Repr

/-- The kind tag a non-boolean value carries. -/
def OtherKind.toValueType : OtherKind → ValueType
  | .Integer => .Integer
  | .Float => .Float
  | .String => .String
  | .Enum => .Enum
  | .Object => .Object
  | .List => .List

/-- A `const ValueBase *` argument to `ParseFromValue`: dynamically either a
`Value<bool>` (kind Boolean) or a value of one of the other kinds. In the
specialization pattern of the source each kind tag corresponds to exactly one
concrete class, so the runtime type is determined by the kind. -/
inductive ValueBase where
  | boolValue (v : BoolValue)
  | otherValue (k : OtherKind)
deriving DecidableEq, Repr

/-- The kind of a `ValueBase`; a `Value<bool>` was constructed with
`Tconfig_type = ValueType::Boolean`. -/
def ValueBase.kind : ValueBase → ValueType
  | .boolValue _ => .Boolean
  | .otherValue k => k.toValueType

/-- `dynamic_cast<const Value<Ttype> *>(value)` with `Ttype = bool`: succeeds
exactly when the pointee actually is a `Value<bool>`. -/
def dynCastToBoolValue : ValueBase → Option BoolValue
  | .boolValue v => some v
  | .otherValue _ => none

/-- `Value<bool>::ParseFromValue(const ValueBase *value, int indent)`:
downcasts the source; on a null result returns `false` without touching
`self`; otherwise copies the source storage (`*_value = *(from_value->_value)`),
sets `_is_parsed = true` and returns `true`. The result pairs the new state
of `self` with the returned bool; the source is never written to (it is
`const`). The `indent` argument is unused by the body. -/
def ParseFromValue (self : BoolValue) (value : ValueBase) (indent : Int) :
    BoolValue × Bool :=
  match dynCastToBoolValue value with
  | none => (self, false)
  | some from_value => ({ _value := from_value._value, _is_parsed := true }, true)

/-- Modelled from the spec: `ov::Converter::ToBool` is not among the sampled
sources. The spec describes the boolean conversion as "case-insensitive
truthy/falsy token matching" with truthy tokens in the style of
{"true","TRUE","1","yes"}, where "unrecognized/unparseable text maps to the
kind's default rather than failing". -/
def ToBool (text : String) : Bool :=
  text.toLower == "true" || text.toLower == "1" || text.toLower == "yes"

/-- `Value<bool>::ParseFromAttribute(attribute, processing_include_file, indent)`:
`*_value = ov::Converter::ToBool(attribute.value()); _is_parsed = true;
return true;`. The attribute is represented by its text `attribute.value()`;
the other two arguments are unused by the body. Returns the new state of
`self` paired with the returned bool (always `true`). -/
def ParseFromAttribute (self : BoolValue) (attribute_value : String)
    (processing_include_file : Bool) (indent : Int) : BoolValue × Bool :=
  ({ _value := ToBool attribute_value, _is_parsed := true }, true)

/-- `Value<bool>::ParseFromNode(node, processing_include_file, indent)`:
`*_value = ov::Converter::ToBool(node.child_value()); _is_parsed = true;
return true;`. The node is represented by its child text `node.child_value()`. -/
def ParseFromNode (self : BoolValue) (node_child_value : String)
    (processing_include_file : Bool) (indent : Int) : BoolValue × Bool :=
  ({ _value := ToBool node_child_value, _is_parsed := true }, true)

/-- `Value<bool>::ToStringInternal(int indent, bool append_new_line)`:
returns `"true\n"`/`"false\n"` when `append_new_line`, else `"true"`/`"false"`,
according to `*_value`. The `indent` argument is unused by the body. -/
def ToStringInternal (self : BoolValue) (indent : Int)
    (append_new_line : Bool) : String :=
  if append_new_line then
    if self._value then "true\n" else "false\n"
  else
    if self._value then "true" else "false"

/-- Modelled from the spec: the public `ToString()` entry point lives in the
`ValueBase` base class (`value_for_specialization.h`, not among the sampled
sources); per the spec it "renders `storage` in the kind's canonical textual
form", which for the outermost call means no indentation and no trailing
newline, delegating to the kind's `ToStringInternal`. -/
def ToString (self : BoolValue) : String :=
  ToStringInternal self 0 false

/-- The spec invariant on a TypedValue: `is_parsed == false` implies the
storage equals the kind's default (`false` for boolean). -/
def parsedInvariant (v : BoolValue) : Prop :=
  v._is_parsed = false → v._value = false

instance (v : BoolValue) : Decidable (parsedInvariant v) := by
  unfold parsedInvariant
  infer_instance

end cfg

namespace ocst

/-- `ocst::Result`, the orchestrator outcome enumeration, as used by
`api_server.cpp` (`Failed`, `Succeeded`, `Exists`, `NotExists`). -/
inductive Result where
  | Failed
  | Succeeded
  | Exists
  | NotExists
deriving DecidableEq, Repr

/-- Modelled from the spec: `ocst::Orchestrator::CreateVirtualHost` lives in
`orchestrator/orchestrator.h`, which is not among the sampled sources. Per
spec §4.4: "Looks up `spec.name` in the topology. If present →
`AlreadyExists` (no mutation). If the underlying construction step (schema
validation, resource allocation) errors → `Failed` (no mutation, topology
unchanged ...). Otherwise inserts ... returns `Succeeded`." The topology is
the list of virtual-host names; `construction_fails` stands for a failure of
the underlying construction step. -/
def CreateVirtualHost (topology : List String) (name : String)
    (construction_fails : Bool) : Result × List String :=
  if name ∈ topology then (.Exists, topology)
  else if construction_fails then (.Failed, topology)
  else (.Succeeded, topology ++ [name])

/-- Modelled from the spec: `ocst::Orchestrator::DeleteVirtualHost` is not
among the sampled sources. Per spec §4.4: "If absent → `NotFound`. If the
removal step errors (e.g., host still has active dependents) → `Failed`.
Otherwise removes it, returns `Succeeded`." `removal_fails` stands for a
failure of the removal step. -/
def DeleteVirtualHost (topology : List String) (name : String)
    (removal_fails : Bool) : Result × List String :=
  if name ∈ topology then
    if removal_fails then (.Failed, topology)
    else (.Succeeded, topology.erase name)
  else (.NotExists, topology)

end ocst

namespace api

/-- The HTTP status codes thrown by `Server::CreateVHost` /
`Server::DeleteVHost` via `http::HttpError`. -/
inductive StatusCode where
  | BadRequest
  | Conflict
  | NotFound
  | InternalServerError
deriving DecidableEq, Repr

/-- Observable outcome of `Server::CreateVHost` / `Server::DeleteVHost`: the
call either returns normally (`ok`, the `Succeeded` branch falls through) or
throws an `http::HttpError` carrying a status code. -/
inductive VHostOutcome where
  | ok
  | httpError (status : StatusCode)
deriving DecidableEq, Repr

/-- `Server::CreateVHost(vhost_config)` (`api_server.cpp`): invokes the
orchestrator's `CreateVirtualHost` and switches on the result —
`Failed` → `HttpError(BadRequest)`, `Succeeded` → return,
`Exists` → `HttpError(Conflict)`, `NotExists` → assertion failure plus
`HttpError(InternalServerError)` (the comment notes `CreateVirtualHost()`
never returns `NotExists`). The result pairs the outcome with the topology
after the call. -/
def Server.CreateVHost (topology : List String) (name : String)
    (construction_fails : Bool) : VHostOutcome × List String :=
  let r := ocst.CreateVirtualHost topology name construction_fails
  (match r.1 with
    | .Failed => .httpError .BadRequest
    | .Succeeded => .ok
    | .Exists => .httpError .Conflict
    | .NotExists => .httpError .InternalServerError,
   r.2)

/-- `Server::DeleteVHost(host_info)` (`api_server.cpp`): invokes the
orchestrator's `DeleteVirtualHost` and switches on the result —
`Failed` → `HttpError(BadRequest)`, `Succeeded` → return,
`Exists` → assertion failure plus `HttpError(InternalServerError)` (the
comment notes it is never returned), `NotExists` → `HttpError(NotFound)`. -/
def Server.DeleteVHost (topology : List String) (name : String)
    (removal_fails : Bool) : VHostOutcome × List String :=
  let r := ocst.DeleteVirtualHost topology name removal_fails
  (match r.1 with
    | .Failed => .httpError .BadRequest
    | .Succeeded => .ok
    | .Exists => .httpError .InternalServerError
    | .NotExists => .httpError .NotFound,
   r.2)

/-- Inputs of `Server::PrepareHttpServers` together with the external
collaborators it consults. Server instances and socket addresses are
identified by natural numbers. `socketCreate` stands for
`ov::SocketAddress::Create(ip, port)`, which may throw (`Except.error`);
`certificate_some` records whether `info::Certificate::CreateCertificate`
(called only when the TLS port is configured) returned non-null;
`createHttpServer` / `createHttpsServer` stand for
`HttpServerManager::CreateHttpServer` / `CreateHttpsServer`, which may
return null (`none`). -/
structure PrepEnv where
  server_ip_list : List String
  is_port_configured : Bool
  port : Nat
  is_tls_port_configured : Bool
  tls_port : Nat
  certificate_some : Bool
  socketCreate : String → Nat → Except Unit (List Nat)
  createHttpServer : Nat → Option Nat
  createHttpsServer : Nat → Option Nat

/-- The `api::Server` member state touched by `Start` / `PrepareHttpServers`:
the two server vectors, plus the list of servers handed to
`HttpServerManager::ReleaseServer` (an external sink, recorded in call
order so that the cleanup can be observed). -/
structure ServerState where
  _http_server_list : List Nat
  _https_server_list : List Nat
  released : List Nat
deriving DecidableEq, Repr

/-- One of the two inner `for` loops of `PrepareHttpServers`: for each
address, create a server; on success push it onto the vector and continue,
on a null result log and return `false` immediately (keeping the servers
pushed so far). -/
def createLoop (create : Nat → Option Nat) (addresses : List Nat)
    (lst : List Nat) : Bool × List Nat :=
  match addresses with
  | [] => (true, lst)
  | address :: rest =>
    match create address with
    | some server => createLoop create rest (lst ++ [server])
    | none => (false, lst)

/-- The body of the outer `for (server_ip : server_ip_list)` loop of
`Server::PrepareHttpServers`: compute `address_list` and `tls_address_list`
(either `SocketAddress::Create` throwing makes the whole function return
`false` with the state as it stands), then run the HTTP creation loop and,
if it succeeds, the HTTPS creation loop. -/
def prepareOneIp (env : PrepEnv) (server_ip : String) (st : ServerState) :
    Bool × ServerState :=
  let addrs := if env.is_port_configured
    then env.socketCreate server_ip env.port else Except.ok []
  let tlsAddrs := if env.is_tls_port_configured && env.certificate_some
    then env.socketCreate server_ip env.tls_port else Except.ok []
  match addrs, tlsAddrs with
  | .error _, _ => (false, st)
  | .ok _, .error _ => (false, st)
  | .ok address_list, .ok tls_address_list =>
    let r1 := createLoop env.createHttpServer address_list st._http_server_list
    if r1.1 = false then (false, { st with _http_server_list := r1.2 })
    else
      let r2 := createLoop env.createHttpsServer tls_address_list
        st._https_server_list
      (r2.1, { st with _http_server_list := r1.2, _https_server_list := r2.2 })

/-- `Server::PrepareHttpServers`: iterate `prepareOneIp` over the IP list,
stopping at the first failure; returns `true` when every IP succeeded. -/
def PrepareHttpServers (env : PrepEnv) (ips : List String)
    (st : ServerState) : Bool × ServerState :=
  match ips with
  | [] => (true, st)
  | ip :: rest =>
    let r := prepareOneIp env ip st
    if r.1 then PrepareHttpServers env rest r.2 else (false, r.2)

/-- One of the two cleanup `while` loops in `Server::Start`: while the
vector is not empty, take its back element, pop it, and hand it to
`ReleaseServer`. Returns the emptied vector and the release list. -/
def releaseAllFromBack (lst released : List Nat) : List Nat × List Nat :=
  if h : lst = [] then ([], released)
  else releaseAllFromBack lst.dropLast (released ++ [lst.getLast h])
termination_by lst.length
decreasing_by
  have hpos : 0 < lst.length := List.length_pos.mpr h
  simp [List.length_dropLast]
  omega

/-- Flags consumed by `Server::Start` before it reaches
`PrepareHttpServers`: whether `<Bind><Managers><API>` was parsed at all, and
whether `SetupAccessToken` succeeded (the access token is non-empty, or the
build is a Debug build). `SetupCors` and the worker-count lookup do not
touch the server lists and are omitted. -/
structure StartEnv where
  api_bind_parsed : Bool
  setup_access_token_ok : Bool
  prep : PrepEnv

/-- `Server::Start(server_config)`: returns `true` early when the API bind
config is absent or no port is configured; returns `false` when
`SetupAccessToken` fails; otherwise runs `PrepareHttpServers` and, on
failure, releases every server in `_http_server_list` and
`_https_server_list` back-to-front and clears both vectors (the `while`
loops already leave them empty; the `clear()` calls keep them so) before
returning the failed result. -/
def Start (env : StartEnv) (st : ServerState) : Bool × ServerState :=
  if env.api_bind_parsed = false then (true, st)
  else if env.prep.is_port_configured = false ∧
      env.prep.is_tls_port_configured = false then (true, st)
  else if env.setup_access_token_ok = false then (false, st)
  else
    let r := PrepareHttpServers env.prep env.prep.server_ip_list st
    if r.1 then (true, r.2)
    else
      let released1 := (releaseAllFromBack r.2._http_server_list r.2.released).2
      let released2 := (releaseAllFromBack r.2._https_server_list released1).2
      (false, { _http_server_list := [], _https_server_list := [],
                released := released2 })

end api

/-- A concrete bootstrap input exercising the failed-`PrepareHttpServers`
path: a single IP with two HTTP addresses, where creating the server for the
second address returns null. -/
def failingPrepEnv : api.PrepEnv :=
  { server_ip_list := ["0.0.0.0"],
    is_port_configured := true,
    port := 8081,
    is_tls_port_configured := false,
    tls_port := 0,
    certificate_some := false,
    socketCreate := fun _ _ => Except.ok [1, 2],
    createHttpServer := fun a => if a = 1 then some 10 else none,
    createHttpsServer := fun _ => none }

/-- Concrete `Start` input around `failingPrepEnv`: API bind config parsed,
access token accepted. -/
def failingStartEnv : api.StartEnv :=
  { api_bind_parsed := true,
    setup_access_token_ok := true,
    prep := failingPrepEnv }

/-- The cleanup loop empties the vector and appends its elements to the
release list in back-to-front order. -/
theorem releaseAllFromBack_spec (lst released : List Nat) :
    api.releaseAllFromBack lst released = ([], released ++ lst.reverse) := by
  by_cases h : lst = []
  · subst h
    rw [api.releaseAllFromBack]
    simp
  · rw [api.releaseAllFromBack]
    simp only [h, dite_false]
    rw [releaseAllFromBack_spec lst.dropLast (released ++ [lst.getLast h])]
    have hd : lst.dropLast ++ [lst.getLast h] = lst :=
      List.dropLast_append_getLast h
    calc (([] : List Nat), released ++ [lst.getLast h] ++ lst.dropLast.reverse)
        = ([], released ++ (lst.dropLast ++ [lst.getLast h]).reverse) := by
          simp
      _ = ([], released ++ lst.reverse) := by rw [hd]
termination_by lst.length
decreasing_by
  have hpos : 0 < lst.length := List.length_pos.mpr h
  simp [List.length_dropLast]
  omega

/-- C1 counterexample: the claim "`Reset()` sets storage to the default and
sets `is_parsed` to false, regardless of the prior state" fails at the
concrete state `{storage := true, is_parsed := true}`: after `Reset` the
parsed flag is still `true`, because the override's body only reassigns the
storage pointer. -/
theorem reset_clears_parsed_flag_false :
    ¬((cfg.Reset { _value := true, _is_parsed := true })._value = false ∧
      (cfg.Reset { _value := true, _is_parsed := true })._is_parsed = false) := by
  decide

/-- C1 (amended): for every boolean TypedValue, `Reset()` sets the storage to
the kind's default (`false`) regardless of the prior state, and leaves the
`is_parsed` flag unchanged. -/
theorem reset_sets_storage_default (self : cfg.BoolValue) :
    cfg.Reset self = { _value := false, _is_parsed := self._is_parsed } := by
  rfl

/-- C2 counterexample: the claim "any value with `is_parsed == false` stores
`false`" fails at the value built by the converting constructor
`Value(true)`: it stores `true` while its parsed flag is still `false`. -/
theorem parsed_invariant_fails_on_value_ctor :
    ¬((cfg.mkValueFrom true)._is_parsed = false →
      (cfg.mkValueFrom true)._value = false) := by
  decide

/-- C2 (amended): the invariant "`is_parsed == false` implies the storage is
the default `false`" holds after default construction and is preserved by
`Reset` and by each of the three `Parse` variants; it is the converting
constructor `Value(v)` with `v ≠ false` that violates it. -/
theorem parsed_invariant_preserved :
    cfg.parsedInvariant cfg.mkValue ∧
    ∀ v : cfg.BoolValue, cfg.parsedInvariant v →
      cfg.parsedInvariant (cfg.Reset v) ∧
      (∀ src i, cfg.parsedInvariant (cfg.ParseFromValue v src i).1) ∧
      (∀ t pif i, cfg.parsedInvariant (cfg.ParseFromAttribute v t pif i).1) ∧
      (∀ t pif i, cfg.parsedInvariant (cfg.ParseFromNode v t pif i).1) := by
  refine ⟨by decide, fun v hv => ⟨fun h => rfl, fun src i => ?_, ?_, ?_⟩⟩
  · cases src with
    | boolValue w => intro h; cases h
    | otherValue k => exact hv
  · intro t pif i h
    cases h
  · intro t pif i h
    cases h

/-- C2 witness: the preservation theorem applied at the concrete state
produced by default construction. -/
theorem parsed_invariant_preserved_witness :
    cfg.parsedInvariant (cfg.Reset cfg.mkValue) :=
  (parsed_invariant_preserved.2 cfg.mkValue (by decide)).1

/-- C3: `ParseFromValue` between two TypedValues of the same kind (here both
boolean) always succeeds, copies the source storage into the target and sets
the target's parsed flag; a boolean target fed a source of any different kind
always fails (returns `false`, not a fatal error) and leaves the target
unchanged. The source is a `const` pointer in the code and is never written
to in either case. -/
theorem parseFromValue_kind_check :
    (∀ (self v : cfg.BoolValue) (i : Int),
      (cfg.ValueBase.boolValue v).kind = cfg.ValueType.Boolean ∧
      cfg.ParseFromValue self (.boolValue v) i =
        ({ _value := v._value, _is_parsed := true }, true)) ∧
    (∀ (self : cfg.BoolValue) (k : cfg.OtherKind) (i : Int),
      (cfg.ValueBase.otherValue k).kind ≠ cfg.ValueType.Boolean ∧
      cfg.ParseFromValue self (.otherValue k) i = (self, false)) := by
  constructor
  · intro self v i
    exact ⟨rfl, rfl⟩
  · intro self k i
    refine ⟨?_, rfl⟩
    cases k <;> decide

/-- C6: `ParseFromAttribute` on a boolean TypedValue sets `is_parsed` to
`true` unconditionally and stores the case-insensitive truthy-token
conversion of the text; any text that is not a truthy token (including
ill-formed text) yields the kind's default `false` rather than a failure, and
the call still reports success. -/
theorem parseFromAttribute_best_effort :
    ∀ (self : cfg.BoolValue) (text : String) (pif : Bool) (i : Int),
      cfg.ParseFromAttribute self text pif i =
        ({ _value := cfg.ToBool text, _is_parsed := true }, true) ∧
      (cfg.ToBool text = true ↔
        (text.toLower = "true" ∨ text.toLower = "1" ∨ text.toLower = "yes")) := by
  intro self text pif i
  refine ⟨rfl, ?_⟩
  simp [cfg.ToBool, or_assoc]

/-- C7: `ToStringInternal` renders the stored boolean as exactly `"true"` or
`"false"`, followed only by the formatting suffix chosen by the
trailing-newline flag; neither the indent argument nor the newline flag
changes which truth value is represented. -/
theorem toStringInternal_renders_value
    (self : cfg.BoolValue) (indent : Int) (append_new_line : Bool) :
    cfg.ToStringInternal self indent append_new_line =
      (if self._value then "true" else "false") ++
        (if append_new_line then "\n" else "") := by
  unfold cfg.ToStringInternal
  cases append_new_line <;> cases h : self._value <;> simp [h]

/-- C8: for every boolean TypedValue in any state, `Reset()` followed by
`ToString()` yields exactly the kind's canonical default text `"false"`. -/
theorem reset_toString_default (self : cfg.BoolValue) :
    cfg.ToString (cfg.Reset self) = "false" := by
  rfl

/-- C9: For every boolean TypedValue in any state, calling `Reset()` twice in
a row leaves the value in exactly the same state (storage and parsed flag) as
calling `Reset()` once. -/
theorem reset_idempotent (self : cfg.BoolValue) :
    cfg.Reset (cfg.Reset self) = cfg.Reset self := by
  rfl

/-- C4: the underlying `CreateVirtualHost` outcome is drawn from the closed
enumeration and is never `NotExists` (so the surfaced error is never the
NotFound status); when the name is already present the outcome is `Exists`
with no mutation, surfaced as a Conflict error; `Succeeded` is exactly the
case where the administrative caller sees no error; `Failed` is surfaced as
a BadRequest error, distinguishable from the Conflict error. -/
theorem createVHost_closed_outcomes (topology : List String) (name : String)
    (construction_fails : Bool) :
    (ocst.CreateVirtualHost topology name construction_fails).1 ≠
      ocst.Result.NotExists ∧
    (api.Server.CreateVHost topology name construction_fails).1 ≠
      api.VHostOutcome.httpError .NotFound ∧
    (name ∈ topology →
      api.Server.CreateVHost topology name construction_fails =
        (api.VHostOutcome.httpError .Conflict, topology)) ∧
    ((ocst.CreateVirtualHost topology name construction_fails).1 =
        ocst.Result.Succeeded ↔
      (api.Server.CreateVHost topology name construction_fails).1 =
        api.VHostOutcome.ok) ∧
    ((ocst.CreateVirtualHost topology name construction_fails).1 =
        ocst.Result.Failed →
      (api.Server.CreateVHost topology name construction_fails).1 =
        api.VHostOutcome.httpError .BadRequest) ∧
    api.VHostOutcome.httpError .Conflict ≠
      api.VHostOutcome.httpError .BadRequest := by
  by_cases hmem : name ∈ topology <;>
    cases construction_fails <;>
      simp [api.Server.CreateVHost, ocst.CreateVirtualHost, hmem]

/-- C4 witness: creating a host whose name is already in the topology is
surfaced as the Conflict error and leaves the topology unchanged. -/
theorem createVHost_closed_outcomes_witness :
    "edge1" ∈ ["edge1"] ∧
    api.Server.CreateVHost ["edge1"] "edge1" false =
      (api.VHostOutcome.httpError .Conflict, ["edge1"]) :=
  ⟨by simp, (createVHost_closed_outcomes ["edge1"] "edge1" false).2.2.1
    (by simp)⟩

/-- C5: the underlying `DeleteVirtualHost` outcome is never `Exists`; an
absent name yields `NotExists`, surfaced as the NotFound error with no
mutation; a failing removal step yields `Failed`, surfaced as the BadRequest
error with no mutation; otherwise the host is removed and the outcome is
`Succeeded`, which is exactly the case where the caller sees no error; the
NotFound and BadRequest errors are distinguishable. -/
theorem deleteVHost_closed_outcomes (topology : List String) (name : String)
    (removal_fails : Bool) :
    (ocst.DeleteVirtualHost topology name removal_fails).1 ≠
      ocst.Result.Exists ∧
    (name ∉ topology →
      api.Server.DeleteVHost topology name removal_fails =
        (api.VHostOutcome.httpError .NotFound, topology)) ∧
    (name ∈ topology → removal_fails = true →
      api.Server.DeleteVHost topology name removal_fails =
        (api.VHostOutcome.httpError .BadRequest, topology)) ∧
    (name ∈ topology → removal_fails = false →
      api.Server.DeleteVHost topology name removal_fails =
        (api.VHostOutcome.ok, topology.erase name)) ∧
    ((ocst.DeleteVirtualHost topology name removal_fails).1 =
        ocst.Result.Succeeded ↔
      (api.Server.DeleteVHost topology name removal_fails).1 =
        api.VHostOutcome.ok) ∧
    api.VHostOutcome.httpError .NotFound ≠
      api.VHostOutcome.httpError .BadRequest := by
  by_cases hmem : name ∈ topology <;>
    cases removal_fails <;>
      simp [api.Server.DeleteVHost, ocst.DeleteVirtualHost, hmem]

/-- C5 witness: deleting a host that is not in the topology is surfaced as
the NotFound error and leaves the topology unchanged. -/
theorem deleteVHost_closed_outcomes_witness :
    "edge1" ∉ ([] : List String) ∧
    api.Server.DeleteVHost [] "edge1" false =
      (api.VHostOutcome.httpError .NotFound, []) :=
  ⟨by simp, (deleteVHost_closed_outcomes [] "edge1" false).2.1 (by simp)⟩

/-- C10: when `PrepareHttpServers` fails during `Server::Start`, `Start`
returns `false` with both server vectors empty, having handed every server
held in the HTTP and HTTPS vectors after the failed prepare (which include
all instances created during it) to `ReleaseServer`, back-to-front, HTTP
vector first. -/
theorem start_failed_prepare_releases_all (env : api.StartEnv)
    (st : api.ServerState)
    (hbind : env.api_bind_parsed = true)
    (hport : env.prep.is_port_configured = true ∨
      env.prep.is_tls_port_configured = true)
    (htoken : env.setup_access_token_ok = true)
    (hfail : (api.PrepareHttpServers env.prep env.prep.server_ip_list st).1 =
      false) :
    api.Start env st =
      (false,
        { _http_server_list := [],
          _https_server_list := [],
          released :=
            (api.PrepareHttpServers env.prep env.prep.server_ip_list
              st).2.released ++
            (api.PrepareHttpServers env.prep env.prep.server_ip_list
              st).2._http_server_list.reverse ++
            (api.PrepareHttpServers env.prep env.prep.server_ip_list
              st).2._https_server_list.reverse }) ∧
    ∀ s : Nat,
      (s ∈ (api.PrepareHttpServers env.prep env.prep.server_ip_list
          st).2._http_server_list ∨
       s ∈ (api.PrepareHttpServers env.prep env.prep.server_ip_list
          st).2._https_server_list) →
      s ∈ (api.Start env st).2.released := by
  have heq : api.Start env st =
      (false,
        { _http_server_list := [],
          _https_server_list := [],
          released :=
            (api.PrepareHttpServers env.prep env.prep.server_ip_list
              st).2.released ++
            (api.PrepareHttpServers env.prep env.prep.server_ip_list
              st).2._http_server_list.reverse ++
            (api.PrepareHttpServers env.prep env.prep.server_ip_list
              st).2._https_server_list.reverse }) := by
    unfold api.Start
    rcases hport with h | h <;>
      simp [hbind, htoken, hfail, h, releaseAllFromBack_spec, List.append_assoc]
  refine ⟨heq, ?_⟩
  intro s hs
  rw [heq]
  simp only [List.mem_append, List.mem_reverse]
  tauto

/-- C10 witness: the failed-bootstrap theorem applied to the concrete
environment in which the second HTTP server creation returns null; the one
server created before the failure is released and both vectors end empty. -/
theorem start_failed_prepare_releases_all_witness :
    api.Start failingStartEnv
        { _http_server_list := [], _https_server_list := [], released := [] } =
      (false,
        { _http_server_list := [],
          _https_server_list := [],
          released :=
            (api.PrepareHttpServers failingStartEnv.prep
              failingStartEnv.prep.server_ip_list
              { _http_server_list := [], _https_server_list := [],
                released := [] }).2.released ++
            (api.PrepareHttpServers failingStartEnv.prep
              failingStartEnv.prep.server_ip_list
              { _http_server_list := [], _https_server_list := [],
                released := [] }).2._http_server_list.reverse ++
            (api.PrepareHttpServers failingStartEnv.prep
              failingStartEnv.prep.server_ip_list
              { _http_server_list := [], _https_server_list := [],
                released := [] }).2._https_server_list.reverse }) :=
  (start_failed_prepare_releases_all failingStartEnv
    { _http_server_list := [], _https_server_list := [], released := [] }
    rfl (Or.inl rfl) rfl (by decide)).1
